import Mathlib

/-!
Verification development for the Slack project bot (src/index.js).

The JavaScript source is shallowly embedded: each pure fragment of the
source becomes an executable Lean definition, and the stateful handlers
are modelled by the pure functions they compute (the block lists they
render, the Airtable field objects they send, the formula strings they
build, the catch-clause messages they emit).  JavaScript conventions are
made explicit:
- a missing object field is `Option.none`; the idiom `x || d` on strings
  is `jsStrOr` (the empty string is falsy in JavaScript);
- calendar dates are encoded as the natural number `y*10000 + m*100 + d`,
  which is order-isomorphic to JavaScript `Date` comparison on valid ISO
  dates; `toLocaleDateString` is an abstract parameter `renderDate`;
- `Array.prototype.sort` with a numeric comparator is a stable sort
  (ECMA-262), modelled here by a stable insertion sort, which produces
  the same output as any stable sort for a total preorder comparator.
-/

/-- Models the JavaScript string idiom `x || d` applied to a possibly
missing string field: the empty string is falsy, so it also falls back
to the default `d` (src/index.js lines 233-242). -/
def jsStrOr (v : Option String) (d : String) : String :=
  match v with
  | some x => if x = "" then d else x
  | none => d

/-- Models `Array.prototype.join(sep)` for a list of strings. -/
def joinWith (sep : String) : List String → String
  | [] => ""
  | [x] => x
  | x :: y :: xs => x ++ sep ++ joinWith sep (y :: xs)

/-- The `PRIORITY_VALUES` lookup table (src/index.js lines 52-57):
priority label to (sort order, emoji). -/
def priorityLookup (p : String) : Option (Nat × String) :=
  if p = "Highest - ETD next 30 days" then some (1, "🔴")
  else if p = "High - ETD EoQ3" then some (2, "🟠")
  else if p = "Medium - ETD EoQ4" then some (3, "🟡")
  else if p = "Low - ETD TBD (possible spill over)" then some (4, "🟢")
  else none

/-- The four keys of `PRIORITY_VALUES`, i.e. the fixed priority
enumeration of the schema. -/
def priorityEnum : List String :=
  ["Highest - ETD next 30 days", "High - ETD EoQ3", "Medium - ETD EoQ4",
   "Low - ETD TBD (possible spill over)"]

/-- The `STATUS_VALUES` lookup table (src/index.js lines 59-65):
status label to emoji. -/
def statusLookup (s : String) : Option String :=
  if s = "Not started" then some "⚪"
  else if s = "In progress" then some "🔵"
  else if s = "Delivered" then some "🟢"
  else if s = "Cancelled" then some "❌"
  else if s = "Deprecated" then some "⚫"
  else none

/-- The fields of an Airtable project record as read by the bot.
Missing fields are `none`; dates are encoded `y*10000 + m*100 + d`.
`Related BU` / `Related OKR` arrays default to `[]` when absent, which
is observationally identical to the `|| []` fallback of the source. -/
structure ProjectFields where
  initiative : Option String
  description : Option String
  status : Option String
  priority : Option String
  lastUpdated : Option Nat
  targetDate : Option Nat
  nextMilestone : Option String
  owners : Option String
  relatedBU : List String
  relatedOKR : List String
  deriving DecidableEq, Repr

/-- An Airtable project record: record id plus fields. -/
structure ProjectRecord where
  id : String
  fields : ProjectFields
  deriving DecidableEq, Repr

/-- The value returned by `formatProjectForSlack`
(src/index.js lines 277-283 and 308-314). -/
structure FormattedProject where
  id : String
  initiative : String
  text : String
  description : String
  priorityOrder : Nat
  deriving DecidableEq, Repr

/-- Concatenation of a list of text segments. -/
def strJoin : List String → String
  | [] => ""
  | s :: ss => s ++ strJoin ss

/-- Embedding of `formatProjectForSlack` (src/index.js lines 231-316).
`renderDate` models `new Date(v).toLocaleDateString()`; `compact`
selects the list-view format.  All the `||` fallbacks of the source are
`jsStrOr`, and the `?.emoji || '⚪'` / `?.order || 999` lookups are
`Option.getD` (the table values are never falsy).  The source builds
the text by successive `text += segment` statements; each segment is
one element of the concatenated list below, conditional statements
contributing their segment or nothing. -/
def formatProjectForSlack (renderDate : Nat → String) (project : ProjectRecord)
    (compact : Bool) : FormattedProject :=
  let fields := project.fields
  let initiative := jsStrOr fields.initiative "Unnamed Project"
  let status := jsStrOr fields.status "Not started"
  let priority := jsStrOr fields.priority "Medium - ETD EoQ4"
  let description := jsStrOr fields.description "No description"
  let lastUpdate := match fields.lastUpdated with
    | some v => renderDate v
    | none => "Never"
  let targetDate := match fields.targetDate with
    | some v => some (renderDate v)
    | none => none
  let nextMilestone := jsStrOr fields.nextMilestone ""
  let owners := jsStrOr fields.owners "Unassigned"
  let statusEmoji := (statusLookup status).getD "⚪"
  let priorityEmoji := ((priorityLookup priority).map Prod.snd).getD "⚪"
  let priorityOrder := ((priorityLookup priority).map Prod.fst).getD 999
  let baseSegs : List String :=
    [statusEmoji ++ " *" ++ initiative ++ "*\n",
     priorityEmoji ++ " Priority: " ++ priority ++ "\n",
     "📊 Status: " ++ status ++ "\n",
     "👥 Owners: " ++ owners ++ "\n",
     "📅 Last Update: " ++ lastUpdate]
    ++ (match targetDate with
        | some t => ["\n🎯 Target: " ++ t]
        | none => [])
  if compact then
    let text := strJoin (baseSegs
      ++ (if fields.relatedBU.length > 0 then
            ["\n🏢 BU: " ++ joinWith ", " fields.relatedBU]
          else [])
      ++ (if fields.relatedOKR.length > 0 then
            (if fields.relatedOKR.length ≤ 2 then
              ["\n🎯 OKR: " ++ joinWith ", " fields.relatedOKR]
            else ["\n🎯 OKR: " ++ toString fields.relatedOKR.length ++ " linked"])
          else []))
    ⟨project.id, initiative, text, description, priorityOrder⟩
  else
    let text := strJoin (baseSegs
      ++ (if nextMilestone ≠ "" then ["\n📍 Next Milestone: " ++ nextMilestone]
          else [])
      ++ (if fields.relatedBU.length > 0 then
            ["\n🏢 BU: " ++ joinWith ", " fields.relatedBU]
          else [])
      ++ (if fields.relatedOKR.length > 0 then
            ["\n🎯 OKR: " ++ joinWith ", " fields.relatedOKR]
          else []))
    ⟨project.id, initiative, text, description, priorityOrder⟩

/-- The sentinel date `2099-12-31` used by the client-side sort
(src/index.js lines 188-189), encoded as `y*10000 + m*100 + d`. -/
def farFutureKey : Nat := 20991231

/-- The sort key of a record in `searchProjects`: the target date when
present, the far-future sentinel otherwise (src/index.js lines 188-189). -/
def sortKey (r : ProjectRecord) : Nat :=
  match r.fields.targetDate with
  | some d => d
  | none => farFutureKey

/-- Stable insertion of a record into a list: the record is placed
before the first element whose key is not smaller, so equal keys keep
their original relative order. -/
def sortInsert (x : ProjectRecord) : List ProjectRecord → List ProjectRecord
  | [] => [x]
  | y :: ys => if sortKey x ≤ sortKey y then x :: y :: ys else y :: sortInsert x ys

/-- Embedding of the client-side sort at the end of `searchProjects`
(src/index.js lines 186-192): a stable ascending sort on `sortKey`.
`Array.prototype.sort` is stable (ECMA-262) and the comparator
`dateA - dateB` orders by `sortKey`, so a stable insertion sort computes
the same list. -/
def sortByTargetDate : List ProjectRecord → List ProjectRecord
  | [] => []
  | x :: xs => sortInsert x (sortByTargetDate xs)

/-- The filter dimensions accepted by `searchProjects`
(src/index.js line 133): absent dimensions are `none`; an absent
`owners` array is identical to `[]` for the code paths used. -/
structure SearchFilters where
  status : Option String
  priority : Option String
  bu : Option String
  okr : Option String
  owners : List String
  slackUserId : Option String
  deriving DecidableEq, Repr

/-- Truthiness test for an optional string filter dimension combined
with the `!== "all"` check (src/index.js lines 142-159). -/
def activeDim (v : Option String) : Option String :=
  match v with
  | some s => if s ≠ "" ∧ s ≠ "all" then some s else none
  | none => none

/-- Embedding of the filter-formula assembly in `searchProjects`
(src/index.js lines 133-179): each active dimension contributes one
formula string, and the results are joined with `AND(...)`. -/
def buildSearchFilter (searchTerm : String) (f : SearchFilters) : String :=
  let formulas : List String :=
    (if searchTerm ≠ "" then
      ["OR(FIND(LOWER(\"" ++ searchTerm ++ "\"), LOWER(\x7bInitiative\x7d)), FIND(LOWER(\""
        ++ searchTerm ++ "\"), LOWER(\x7bDescription\x7d)))"]
     else [])
    ++ (match activeDim f.status with
        | some s => ["\x7bStatus\x7d = \"" ++ s ++ "\""]
        | none => [])
    ++ (match activeDim f.priority with
        | some s => ["\x7bPriority\x7d = \"" ++ s ++ "\""]
        | none => [])
    ++ (match activeDim f.bu with
        | some s => ["FIND(\"" ++ s ++ "\", \x7bRelated BU\x7d)"]
        | none => [])
    ++ (match activeDim f.okr with
        | some s => ["FIND(\"" ++ s ++ "\", \x7bRelated OKR\x7d)"]
        | none => [])
    ++ (if f.owners.length > 0 then
          ["OR(" ++ joinWith ", " (f.owners.map (fun oid =>
            "FIND(\"" ++ oid ++ "\", ARRAYJOIN(\x7bProject Owners\x7d))")) ++ ")"]
        else [])
    ++ (match f.slackUserId with
        | some u => if u ≠ "" then
            ["FIND(\"" ++ u ++ "\", \x7bSlack IDs\x7d&\x27\x27)"]
          else []
        | none => [])
  if formulas.length > 0 then "AND(" ++ joinWith ", " formulas ++ ")" else ""

/-- Removes the spaces of a formula string that stand outside its
double-quoted string literals (the Boolean argument tracks whether the
scan is inside a literal).  Two formula strings with the same image are
equivalent Airtable formulas differing only in layout whitespace. -/
def stripSp : List Char → Bool → List Char
  | [], _ => []
  | c :: cs, inQ =>
      if c = '\"' then c :: stripSp cs (!inQ)
      else if c = ' ' ∧ inQ = false then stripSp cs inQ
      else c :: stripSp cs inQ

/-- Whitespace-insensitive normal form of an Airtable formula string:
spaces outside double-quoted literals are erased. -/
def normFormula (s : String) : List Char :=
  stripSp s.data false

/-- A value of one Airtable field in a create/update request body:
either a string or an array of strings. -/
inductive FieldVal where
  | s (v : String)
  | l (vs : List String)
  deriving DecidableEq, Repr

/-- The state values of the create (or edit) modal submission, one
entry per input block; `none` models a missing block/value in the
Slack payload (src/index.js lines 1316-1337 and 1384-1404). -/
structure ViewValues where
  initiative : Option String
  description : Option String
  status : Option String
  priority : Option String
  bu : Option (List String)
  okr : Option (List String)
  owners : Option (List String)
  kpis : Option String
  risks : Option String
  nextMilestone : Option String
  targetDate : Option String
  deriving DecidableEq, Repr

/-- Embedding of the field object built by the `submit_project_create`
handler (src/index.js lines 1320-1337), as an ordered key-value list
(key presence is part of the wire contract).  `today` models
`new Date().toISOString().split('T')[0]`, a `YYYY-MM-DD` string.
The result is `none` when one of the unguarded required accesses
(`initiative_block`, `status_block`, `priority_block`) would throw a
`TypeError`; the guarded `Target date` entry is appended only when a
date was selected (JavaScript truthiness, so `""` also skips it). -/
def buildCreateFields (v : ViewValues) (today : String) :
    Option (List (String × FieldVal)) :=
  match v.initiative, v.status, v.priority with
  | some init, some st, some pr =>
      some ([("Initiative", FieldVal.s init),
        ("Description", FieldVal.s (v.description.getD "")),
        ("Status", FieldVal.s st),
        ("Priority", FieldVal.s pr),
        ("Related BU", FieldVal.l (v.bu.getD [])),
        ("Related OKR", FieldVal.l (v.okr.getD [])),
        ("Project Owners", FieldVal.l (v.owners.getD [])),
        ("KPIs (how to measure success?)", FieldVal.s (v.kpis.getD "")),
        ("Risks/Blockers", FieldVal.s (v.risks.getD "")),
        ("Next milestone", FieldVal.s (v.nextMilestone.getD "")),
        ("Last updated", FieldVal.s today)]
        ++ (match v.targetDate with
            | some d => if d ≠ "" then [("Target date", FieldVal.s d)] else []
            | none => []))
  | _, _, _ => none

/-- Embedding of the field object built by the `submit_project_edit`
handler (src/index.js lines 1387-1404); the source duplicates the
construction of the create handler verbatim. -/
def buildEditFields (v : ViewValues) (today : String) :
    Option (List (String × FieldVal)) :=
  match v.initiative, v.status, v.priority with
  | some init, some st, some pr =>
      some ([("Initiative", FieldVal.s init),
        ("Description", FieldVal.s (v.description.getD "")),
        ("Status", FieldVal.s st),
        ("Priority", FieldVal.s pr),
        ("Related BU", FieldVal.l (v.bu.getD [])),
        ("Related OKR", FieldVal.l (v.okr.getD [])),
        ("Project Owners", FieldVal.l (v.owners.getD [])),
        ("KPIs (how to measure success?)", FieldVal.s (v.kpis.getD "")),
        ("Risks/Blockers", FieldVal.s (v.risks.getD "")),
        ("Next milestone", FieldVal.s (v.nextMilestone.getD "")),
        ("Last updated", FieldVal.s today)]
        ++ (match v.targetDate with
            | some d => if d ≠ "" then [("Target date", FieldVal.s d)] else []
            | none => []))
  | _, _, _ => none

/-- The user-facing request handlers registered on the Bolt app
(src/index.js): the slash command, the three view submissions, and the
six block actions. -/
inductive BotHandler where
  | slashProject
  | filterModalSubmit
  | createSubmit
  | editSubmit
  | editAction
  | deleteAction
  | nextPage
  | prevPage
  | editNextPage
  | editPrevPage
  deriving DecidableEq, Repr

/-- The four pagination block-action handlers
(src/index.js lines 1620-1663). -/
def isPaginationHandler : BotHandler → Bool
  | .nextPage | .prevPage | .editNextPage | .editPrevPage => true
  | _ => false

/-- The fixed text the catch clause of each handler places between the
error glyph and the raw error message (unused for the pagination
handlers, whose catch clauses send nothing). -/
def catchLabel : BotHandler → String
  | .slashProject => " Error: "
  | .filterModalSubmit => " Error applying filters: "
  | .createSubmit => " Error creating project: "
  | .editSubmit => " Error updating project: "
  | .editAction => " Error opening edit modal: "
  | .deleteAction => " Error deleting project: "
  | _ => ""

/-- The ephemeral message the catch clause of a handler sends to the
invoking user when the handler body throws with message `e`, `none`
when the catch clause only logs.  Transcribed from the catch blocks at
src/index.js lines 354-360, 1080-1087, 1303-1310, 1370-1377,
1430-1437, 1459-1466 (each sends an ephemeral `❌ ...` text) and lines
1620-1663 (the four pagination handlers only call `console.error`). -/
def catchEphemeral : BotHandler → String → Option String
  | .slashProject, e => some ("❌ Error: " ++ e)
  | .filterModalSubmit, e => some ("❌ Error applying filters: " ++ e)
  | .createSubmit, e => some ("❌ Error creating project: " ++ e)
  | .editSubmit, e => some ("❌ Error updating project: " ++ e)
  | .editAction, e => some ("❌ Error opening edit modal: " ++ e)
  | .deleteAction, e => some ("❌ Error deleting project: " ++ e)
  | .nextPage, _ => none
  | .prevPage, _ => none
  | .editNextPage, _ => none
  | .editPrevPage, _ => none

/-- Is a character whitespace for the purpose of `trim` and the
`/\s+/` split (space, tab, carriage return, line feed). -/
def jsWs (c : Char) : Bool := c.isWhitespace

/-- Models `String.prototype.trim()` on the character list. -/
def jsTrimChars (cs : List Char) : List Char :=
  ((cs.dropWhile jsWs).reverse.dropWhile jsWs).reverse

/-- Splits a character list into maximal runs of non-whitespace
characters (`acc` is the word being accumulated, in reverse). -/
def wordsAux : List Char → List Char → List (List Char)
  | [], acc => if acc = [] then [] else [acc.reverse]
  | c :: cs, acc =>
      if jsWs c then
        (if acc = [] then wordsAux cs [] else acc.reverse :: wordsAux cs [])
      else wordsAux cs (c :: acc)

/-- Models `text.split(/\s+/)` on an already trimmed string: an empty
string yields `[""]` (as in JavaScript), otherwise the whitespace-run
separated words. -/
def jsSplitWsPlus (s : String) : List String :=
  if s.data = [] then [""] else (wordsAux s.data []).map String.mk

/-- The trimmed command text, `(command.text or "").trim()`
(src/index.js line 323). -/
def trimmedText (text : String) : String :=
  String.mk (jsTrimChars text.data)

/-- The destructuring `[action, ...searchTerms] = text.split(/\s+/)`
(src/index.js line 324): the first token. -/
def actionToken (text : String) : String :=
  (jsSplitWsPlus (trimmedText text)).headD ""

/-- The remainder tokens re-joined with single spaces,
`searchTerms.join(" ")` (src/index.js line 325). -/
def searchTermOf (text : String) : String :=
  joinWith " " (jsSplitWsPlus (trimmedText text)).tail

/-- The observable dispatch decision of the `/project` command handler:
which helper is invoked and with which string argument. -/
inductive DispatchResult where
  | filterModal (initialSearch : String)
  | editList (searchTerm : String)
  | deleteList (searchTerm : String)
  | createModal
  | helpMsg
  deriving DecidableEq, Repr

/-- Embedding of the `/project` command dispatcher
(src/index.js lines 320-353): the switch on the first token, with the
default case passing the whole trimmed text to the filter modal. -/
def dispatch (text : String) : DispatchResult :=
  let action := actionToken text
  if action = "list" ∨ action = "view" then .filterModal (searchTermOf text)
  else if action = "edit" then .editList (searchTermOf text)
  else if action = "delete" then .deleteList (searchTermOf text)
  else if action = "create" ∨ action = "new" then .createModal
  else if action = "help" then .helpMsg
  else .filterModal (trimmedText text)

/-- An HTTP response from the Airtable REST API as seen by
`airtableFetch`: the success flag `response.ok` and the response body.
`jsonBody` stands for the parsed-and-restringified JSON body (the
Airtable API always answers with JSON, so `response.json()` succeeds
and `JSON.stringify` of it is a string determined by the body). -/
structure AirtableResponse where
  ok : Bool
  jsonBody : String
  deriving DecidableEq, Repr

/-- Embedding of the response handling in `airtableFetch`
(src/index.js lines 100-105): a non-success status throws an error
whose message wraps the JSON error body; a success status returns the
parsed body. -/
def airtableFetch (resp : AirtableResponse) : Except String String :=
  if resp.ok then Except.ok resp.jsonBody
  else Except.error ("Airtable API error: " ++ resp.jsonBody)

/-- The complete filter set carried by a listing pagination button
payload, as destructured in `showProjectsPage`
(src/index.js lines 1473, 1578-1580). -/
structure ListingFilters where
  searchTerm : String
  status : String
  priority : String
  bu : String
  okr : String
  owners : List String
  deriving DecidableEq, Repr

/-- The `value` carried by a rendered button: a record id for the
edit/delete accessories, or the JSON-serialized navigation state of the
two pagination flavours (the handlers `JSON.parse` it back, so the
payload is modelled structurally). -/
inductive BtnPayload where
  | recordId (id : String)
  | listingNav (filters : ListingFilters) (page : Nat)
  | editNav (searchTerm : String) (slackUserId : String) (page : Nat)
  deriving DecidableEq, Repr

/-- A rendered Slack button: its `action_id` and its `value` payload. -/
structure SButton where
  actionId : String
  payload : BtnPayload
  deriving DecidableEq, Repr

/-- The Slack block shapes emitted by the bot: a section with an
optional accessory button, a divider, a context line, and an actions
row of buttons. -/
inductive SlackBlock where
  | sec (text : String) (accessory : Option SButton)
  | divider
  | context (text : String)
  | actions (elements : List SButton)
  deriving DecidableEq, Repr

/-- The rendered outcome of a listing helper: the early-return
ephemeral text for an empty result set, or the message block list. -/
inductive PageRender where
  | noResults (text : String)
  | page (blocks : List SlackBlock)
  deriving DecidableEq, Repr

/-- All buttons of one block. -/
def blockButtons : SlackBlock → List SButton
  | .sec _ (some b) => [b]
  | .sec _ none => []
  | .divider => []
  | .context _ => []
  | .actions es => es

/-- All buttons of a block list, in rendering order. -/
def allButtons (bs : List SlackBlock) : List SButton :=
  bs.flatMap blockButtons

/-- Whether a block list contains a button with the given `action_id`. -/
def hasBtn (bs : List SlackBlock) (aid : String) : Bool :=
  (allButtons bs).any (fun b => b.actionId == aid)

/-- The sections that display a record: section blocks carrying an
accessory button, with their text and that button (the header sections
rendered by the listing helpers carry no accessory). -/
def projSections (bs : List SlackBlock) : List (String × SButton) :=
  bs.filterMap (fun b => match b with
    | .sec t (some btn) => some (t, btn)
    | _ => none)

/-- The section/actions block pair rendered for one project row of a
paginated listing (src/index.js lines 1522-1554): a compact-format
section with an edit accessory, then an actions row with the delete
button (the style and confirm dialog of the delete button are visual
attributes, not modelled). -/
def projectPair (renderDate : Nat → String) (pr : ProjectRecord) : List SlackBlock :=
  [SlackBlock.sec (formatProjectForSlack renderDate pr true).text
      (some ⟨"edit_project", BtnPayload.recordId pr.id⟩),
   SlackBlock.actions [⟨"delete_project", BtnPayload.recordId pr.id⟩]]

/-- The active-filter summary strings of `showProjectsPage`
(src/index.js lines 1502-1508). -/
def activeFilterSummary (f : ListingFilters) : List String :=
  (if f.searchTerm ≠ "" then ["Search: \"" ++ f.searchTerm ++ "\""] else [])
  ++ (if f.status ≠ "all" then ["Status: " ++ f.status] else [])
  ++ (if f.priority ≠ "all" then ["Priority: " ++ f.priority] else [])
  ++ (if f.bu ≠ "all" then ["BU: " ++ f.bu] else [])
  ++ (if f.okr ≠ "all" then ["OKR: " ++ f.okr] else [])
  ++ (if f.owners.length > 0 then
        ["Owners: " ++ toString f.owners.length ++ " selected"] else [])

/-- The navigation buttons of `showProjectsPage`
(src/index.js lines 1570-1595): Previous when the page index is
positive, Next when it is below the last page, each carrying the
complete filter set and the adjacent page index. -/
def listingNavButtons (f : ListingFilters) (p n : Nat) : List SButton :=
  let totalPages := (n + 7) / 8
  (if p > 0 then
    [⟨"projects_prev_page", BtnPayload.listingNav f (p - 1)⟩] else [])
  ++ (if p < totalPages - 1 then
    [⟨"projects_next_page", BtnPayload.listingNav f (p + 1)⟩] else [])

/-- The block list rendered by `showProjectsPage` for a non-empty
result set (src/index.js lines 1485-1603): header, optional filter
summary, the page window of project pairs, the paging context line,
and the navigation row when there is more than one page. -/
def pageBlocks (renderDate : Nat → String) (f : ListingFilters) (p : Nat)
    (projects : List ProjectRecord) : List SlackBlock :=
  let n := projects.length
  let totalPages := (n + 7) / 8
  let window := (projects.drop (8 * p)).take 8
  let nav := listingNavButtons f p n
  [SlackBlock.sec ("*Found " ++ toString n ++ " project(s):*") none,
   SlackBlock.divider]
  ++ (if (activeFilterSummary f).length > 0 then
        [SlackBlock.context ("_Filters: " ++ joinWith " • " (activeFilterSummary f) ++ "_"),
         SlackBlock.divider]
      else [])
  ++ window.flatMap (projectPair renderDate)
  ++ [SlackBlock.context ("_Showing " ++ toString (8 * p + 1) ++ "-"
       ++ toString (min (8 * p + 8) n) ++ " of " ++ toString n
       ++ " projects (Page " ++ toString (p + 1) ++ " of "
       ++ toString totalPages ++ ")_")]
  ++ (if totalPages > 1 then
        (if nav.length > 0 then [SlackBlock.actions nav] else [])
      else [])

/-- Embedding of the pagination helper `showProjectsPage`
(src/index.js lines 1471-1618), as a function of the filtered and
sorted result list it re-fetches: an empty list short-circuits to an
ephemeral notice, otherwise the page blocks are rendered. -/
def showProjectsPage (renderDate : Nat → String) (f : ListingFilters) (p : Nat)
    (projects : List ProjectRecord) : PageRender :=
  if projects.isEmpty then
    PageRender.noResults "No projects found with the specified filters."
  else
    PageRender.page (pageBlocks renderDate f p projects)

/-- Truthiness of the optional `slackUserId` argument of
`showProjectList` (a missing or empty id is falsy). -/
def jsTruthyOpt (o : Option String) : Bool :=
  match o with
  | some s => s ≠ ""
  | none => false

/-- The header text of `showProjectList` (src/index.js lines 656-662). -/
def listHeaderText (action searchTerm : String) (slackUserId : Option String) : String :=
  (if action = "edit" ∧ jsTruthyOpt slackUserId then
    "*Select a project to " ++ action ++ " (your projects only):*"
   else "*Select a project to " ++ action ++ ":*")
  ++ (if searchTerm ≠ "" then " (filtered by \"" ++ searchTerm ++ "\")" else "")

/-- The empty-result message of `showProjectList`
(src/index.js lines 639-653). -/
def listEmptyMessage (action searchTerm : String) (slackUserId : Option String) : String :=
  (if action = "edit" ∧ jsTruthyOpt slackUserId then
    "No projects found where you are a member"
   else "No projects found")
  ++ (if searchTerm ≠ "" then " matching \"" ++ searchTerm ++ "\"" else "")
  ++ "."

/-- The context notice appended by `showProjectList` when the result
list holds more than ten projects (src/index.js lines 700-710). -/
def listOverflowNotice (n : Nat) : String :=
  "_Showing 10 of " ++ toString n ++ " projects. Use filters for more specific results._"

/-- The block list rendered by `showProjectList` for a non-empty result
set (src/index.js lines 664-710): header, divider, the first ten
projects in full format with an action accessory button, and the
overflow notice when more than ten were found. -/
def listBlocks (renderDate : Nat → String) (action searchTerm : String)
    (slackUserId : Option String) (projects : List ProjectRecord) : List SlackBlock :=
  [SlackBlock.sec (listHeaderText action searchTerm slackUserId) none,
   SlackBlock.divider]
  ++ (projects.take 10).map (fun pr =>
        SlackBlock.sec (formatProjectForSlack renderDate pr false).text
          (some ⟨action ++ "_project", BtnPayload.recordId pr.id⟩))
  ++ (if projects.length > 10 then
        [SlackBlock.context (listOverflowNotice projects.length)]
      else [])

/-- Embedding of `showProjectList` (src/index.js lines 632-716), as a
function of the result list it fetches: the selection list shown for
the edit/delete flows. -/
def showProjectList (renderDate : Nat → String) (action searchTerm : String)
    (slackUserId : Option String) (projects : List ProjectRecord) : PageRender :=
  if projects.isEmpty then
    PageRender.noResults (listEmptyMessage action searchTerm slackUserId)
  else
    PageRender.page (listBlocks renderDate action searchTerm slackUserId projects)

/-- The four pagination `action_id` values
(src/index.js lines 1620-1663). -/
def navActionIds : List String :=
  ["projects_prev_page", "projects_next_page",
   "edit_projects_prev_page", "edit_projects_next_page"]

/-- A date renderer used for the concrete sample evaluations. -/
def renderDate0 : Nat → String := fun _ => "1/1/2025"

/-- An empty filter set used for the concrete sample evaluations. -/
def filters0 : ListingFilters := ⟨"", "all", "all", "all", "all", []⟩

/-- A sample project record without a target date. -/
def recNoDate : ProjectRecord :=
  ⟨"recA", ⟨some "Alpha", none, some "In progress", some "High - ETD EoQ3",
    none, none, none, none, [], []⟩⟩

/-- A sample project record with a target date after the sentinel
`2099-12-31`, namely `2100-01-01`. -/
def recLateDate : ProjectRecord :=
  ⟨"recB", ⟨some "Beta", none, some "Not started", some "Medium - ETD EoQ4",
    none, some 21000101, none, none, [], []⟩⟩

/-- A sample project record dated `2025-01-01`. -/
def recEarlyDate : ProjectRecord :=
  ⟨"recC", ⟨some "Gamma", none, some "Delivered", some "Medium - ETD EoQ4",
    none, some 20250101, none, none, [], []⟩⟩

/-- A sample record whose `Priority` field is present but holds the
empty string. -/
def recEmptyPriority : ProjectRecord :=
  ⟨"recD", ⟨some "Delta", none, some "In progress", some "",
    none, none, none, none, [], []⟩⟩

/-- A sample record whose `Priority` field holds a non-empty value
outside the fixed enumeration. -/
def recUnknownPriority : ProjectRecord :=
  ⟨"recE", ⟨some "Epsilon", none, some "In progress", some "Urgent",
    none, none, none, none, [], []⟩⟩

/-- Nine copies of the undated sample record: a result set spanning
two pages of size eight. -/
def nineRecords : List ProjectRecord := List.replicate 9 recNoDate

/-- Eleven copies of the undated sample record: a result set that
overflows the ten-row selection list. -/
def elevenRecords : List ProjectRecord := List.replicate 11 recNoDate

/-- A create-modal submission in which only the three required inputs
(Initiative, Status, Priority) carry values. -/
def minimalCreateValues : ViewValues :=
  ⟨some "P", none, some "Not started", some "Medium - ETD EoQ4",
   none, none, none, none, none, none, none⟩

/-- The search filters of the specification example: status fixed to
`In progress`, every other dimension inactive. -/
def mintFilters : SearchFilters :=
  ⟨some "In progress", none, none, none, [], none⟩

/-- Does the character list `hay` start with `pat`? -/
def startsW : List Char → List Char → Bool
  | _, [] => true
  | [], _ :: _ => false
  | c :: cs, d :: ds => c == d && startsW cs ds

/-- Does the character list `hay` contain `pat` as a contiguous
segment? -/
def containsSeg : List Char → List Char → Bool
  | [], pat => pat.isEmpty
  | c :: rest, pat => startsW (c :: rest) pat || containsSeg rest pat

/-- Does the string `s` contain the string `pat` as a contiguous
substring? -/
def containsStr (s pat : String) : Bool :=
  containsSeg s.data pat.data


theorem sortInsert_perm (x : ProjectRecord) (l : List ProjectRecord) :
    (sortInsert x l).Perm (x :: l) := by
  induction l with
  | nil => simp [sortInsert]
  | cons y ys ih =>
      by_cases h : sortKey x ≤ sortKey y
      · simp [sortInsert, h]
      · simp only [sortInsert, if_neg h]
        exact (ih.cons y).trans (List.Perm.swap x y ys)

theorem sortByTargetDate_perm (l : List ProjectRecord) :
    (sortByTargetDate l).Perm l := by
  induction l with
  | nil => simp [sortByTargetDate]
  | cons x xs ih =>
      exact (sortInsert_perm x (sortByTargetDate xs)).trans (ih.cons x)

theorem pairwise_sortInsert (x : ProjectRecord) (l : List ProjectRecord)
    (h : List.Pairwise (fun a b => sortKey a ≤ sortKey b) l) :
    List.Pairwise (fun a b => sortKey a ≤ sortKey b) (sortInsert x l) := by
  induction l with
  | nil => simp [sortInsert]
  | cons y ys ih =>
      rw [List.pairwise_cons] at h
      by_cases hx : sortKey x ≤ sortKey y
      · rw [sortInsert, if_pos hx, List.pairwise_cons]
        refine ⟨?_, List.pairwise_cons.mpr h⟩
        intro z hz
        rcases List.mem_cons.mp hz with rfl | hz
        · exact hx
        · exact hx.trans (h.1 z hz)
      · rw [sortInsert, if_neg hx, List.pairwise_cons]
        refine ⟨?_, ih h.2⟩
        intro z hz
        have := (sortInsert_perm x ys).mem_iff.mp hz
        rcases List.mem_cons.mp this with rfl | hz'
        · exact Nat.le_of_lt (Nat.lt_of_not_le hx)
        · exact h.1 z hz'

theorem sortByTargetDate_sorted (l : List ProjectRecord) :
    List.Pairwise (fun a b => sortKey a ≤ sortKey b) (sortByTargetDate l) := by
  induction l with
  | nil => simp [sortByTargetDate]
  | cons x xs ih => exact pairwise_sortInsert x _ ih

theorem filter_sortInsert (x : ProjectRecord) (l : List ProjectRecord) (k : Nat) :
    (sortInsert x l).filter (fun r => sortKey r == k)
      = (x :: l).filter (fun r => sortKey r == k) := by
  induction l with
  | nil => rfl
  | cons y ys ih =>
      by_cases hx : sortKey x ≤ sortKey y
      · rw [sortInsert, if_pos hx]
      · rw [sortInsert, if_neg hx]
        have hlt : sortKey y < sortKey x := Nat.lt_of_not_le hx
        by_cases hy : (sortKey y == k) = true
        · have hxk : (sortKey x == k) = false := by
            have : sortKey y = k := by simpa using hy
            have : sortKey x ≠ k := by omega
            simpa using this
          simp [List.filter_cons, hy, hxk, ih]
        · by_cases hxk : (sortKey x == k) = true
          · simp [List.filter_cons, hy, hxk, ih]
          · simp [List.filter_cons, hy, hxk, ih]

theorem filter_sortByTargetDate (l : List ProjectRecord) (k : Nat) :
    (sortByTargetDate l).filter (fun r => sortKey r == k)
      = l.filter (fun r => sortKey r == k) := by
  induction l with
  | nil => rfl
  | cons x xs ih =>
      rw [sortByTargetDate, filter_sortInsert, List.filter_cons, List.filter_cons, ih]

/-- Claim C3 (amended): the client-side sort of `searchProjects` is a
stable ascending sort on the target-date key, where a missing
`Target date` is replaced by the sentinel `2099-12-31`; provided every
present target date is strictly earlier than the sentinel, every
undated record is placed after every dated one, dated records appear
in ascending date order, and records with equal keys (in particular
all the undated ones) keep their original relative order. -/
theorem sortByTargetDate_spec (ps : List ProjectRecord)
    (h : ∀ r ∈ ps, r.fields.targetDate.getD 0 < farFutureKey) :
    List.Pairwise (fun a b => sortKey a ≤ sortKey b) (sortByTargetDate ps) ∧
    List.Pairwise (fun a b =>
      a.fields.targetDate = none → b.fields.targetDate = none)
      (sortByTargetDate ps) ∧
    ∀ k, (sortByTargetDate ps).filter (fun r => sortKey r == k)
      = ps.filter (fun r => sortKey r == k) := by
  refine ⟨sortByTargetDate_sorted ps, ?_, fun k => filter_sortByTargetDate ps k⟩
  refine List.Pairwise.imp_of_mem ?_ (sortByTargetDate_sorted ps)
  intro a b ha hb hab hnone
  have hb' : b ∈ ps := (sortByTargetDate_perm ps).subset hb
  have hka : sortKey a = farFutureKey := by simp [sortKey, hnone]
  rcases hbt : b.fields.targetDate with _ | d
  · rfl
  · exfalso
    have hkb : sortKey b = d := by simp [sortKey, hbt]
    have := h b hb'
    rw [hbt] at this
    simp at this
    omega

/-- Claim C3 counterexample: with a record dated `2100-01-01` (later
than the sentinel `2099-12-31`), the sort places an undated record
before a dated one, so the claim that every record lacking a target
date comes after every record that has one is false. -/
theorem sortByTargetDate_counterexample :
    recNoDate.fields.targetDate = none ∧
    recLateDate.fields.targetDate = some 21000101 ∧
    sortByTargetDate [recLateDate, recNoDate] = [recNoDate, recLateDate] := by
  decide

/-- Witness for `sortByTargetDate_spec` at a concrete two-record list. -/
theorem sortByTargetDate_spec_witness :
    List.Pairwise (fun a b =>
      a.fields.targetDate = none → b.fields.targetDate = none)
      (sortByTargetDate [recNoDate, recEarlyDate]) ∧
    (sortByTargetDate [recNoDate, recEarlyDate]).filter
        (fun r => sortKey r == 20250101)
      = [recNoDate, recEarlyDate].filter (fun r => sortKey r == 20250101) :=
  ⟨(sortByTargetDate_spec [recNoDate, recEarlyDate] (by decide)).2.1,
   (sortByTargetDate_spec [recNoDate, recEarlyDate] (by decide)).2.2 20250101⟩

/-- Claim C2: searching `mint` with the single active filter
`status = "In progress"` produces a formula string whose
whitespace-insensitive normal form is exactly the Airtable formula
`AND(OR(FIND(LOWER("mint"),LOWER({Initiative})),FIND(LOWER("mint"),LOWER({Description}))),{Status}="In progress")`. -/
theorem buildSearchFilter_mint_in_progress :
    normFormula (buildSearchFilter "mint" mintFilters)
      = normFormula "AND(OR(FIND(LOWER(\"mint\"),LOWER(\x7bInitiative\x7d)),FIND(LOWER(\"mint\"),LOWER(\x7bDescription\x7d))),\x7bStatus\x7d=\"In progress\")" := by
  decide

/-- Claim C8: `airtableFetch` throws exactly when the HTTP response has
a non-success status; the thrown message wraps the JSON error body, and
a success status returns the parsed body. -/
theorem airtableFetch_spec (resp : AirtableResponse) :
    ((∃ e, airtableFetch resp = Except.error e) ↔ resp.ok = false) ∧
    (resp.ok = false →
      airtableFetch resp = Except.error ("Airtable API error: " ++ resp.jsonBody)) ∧
    (resp.ok = true → airtableFetch resp = Except.ok resp.jsonBody) := by
  rcases resp with ⟨ok, body⟩
  cases ok <;> simp [airtableFetch]

/-- Witness for `airtableFetch_spec` at a concrete failing response. -/
theorem airtableFetch_spec_witness :
    airtableFetch ⟨false, "\x7b\"error\":\"NOT_FOUND\"\x7d"⟩
      = Except.error ("Airtable API error: " ++ "\x7b\"error\":\"NOT_FOUND\"\x7d") :=
  (airtableFetch_spec ⟨false, "\x7b\"error\":\"NOT_FOUND\"\x7d"⟩).2.1 rfl

/-- Claim C6 (amended): every handler catch clause stops the error from
propagating; the slash-command handler, the three view-submission
handlers and the edit/delete block-action handlers send the invoking
user an ephemeral message made of the error glyph, a fixed label and
the raw error text, while the four pagination action handlers only log
and send nothing. -/
theorem catchEphemeral_spec (h : BotHandler) (e : String) :
    (isPaginationHandler h = false →
      catchEphemeral h e = some ("❌" ++ catchLabel h ++ e)) ∧
    (isPaginationHandler h = true → catchEphemeral h e = none) := by
  cases h <;> simp [catchEphemeral, isPaginationHandler, catchLabel]

/-- Claim C6 counterexample: when the body of the `projects_next_page`
handler throws, its catch clause sends no message at all, refuting the
claim that every handler sends an ephemeral error message. -/
theorem catchEphemeral_counterexample :
    catchEphemeral BotHandler.nextPage "Unexpected token o in JSON" = none := by
  rfl

/-- Witness for `catchEphemeral_spec` at the slash-command handler. -/
theorem catchEphemeral_spec_witness :
    catchEphemeral BotHandler.slashProject "boom"
      = some ("❌" ++ catchLabel BotHandler.slashProject ++ "boom") :=
  (catchEphemeral_spec BotHandler.slashProject "boom").1 rfl

/-- Claim C9: every field object built by the create handler and by the
edit handler binds the `Last updated` key to the current date string
(here the `today` parameter, modelling
`new Date().toISOString().split('T')[0]`), for every submission. -/
theorem lastUpdated_always_today (v : ViewValues) (today : String) :
    (∀ flds, buildCreateFields v today = some flds →
      ("Last updated", FieldVal.s today) ∈ flds) ∧
    (∀ flds, buildEditFields v today = some flds →
      ("Last updated", FieldVal.s today) ∈ flds) := by
  constructor <;>
  · intro flds hf
    rcases hi : v.initiative with _ | init <;>
      rcases hs : v.status with _ | st <;>
      rcases hp : v.priority with _ | pr <;>
      simp [buildCreateFields, buildEditFields, hi, hs, hp] at hf
    subst hf
    simp

/-- Witness for `lastUpdated_always_today` at the minimal create
submission. -/
theorem lastUpdated_always_today_witness :
    ("Last updated", FieldVal.s "2026-10-11")
      ∈ (buildCreateFields minimalCreateValues "2026-10-11").getD [] :=
  (lastUpdated_always_today minimalCreateValues "2026-10-11").1 _ rfl

/-- Claim C5 (amended): a create submission carrying only the required
Initiative, Status and Priority values does not throw, and the field
object sent to Airtable binds every optional key except `Target date`
to an empty string or empty collection; the `Target date` key is
omitted entirely when no date was selected. -/
theorem buildCreateFields_minimal (i st pr today : String) :
    buildCreateFields
        ⟨some i, none, some st, some pr, none, none, none, none, none, none, none⟩
        today
      = some [("Initiative", FieldVal.s i),
          ("Description", FieldVal.s ""),
          ("Status", FieldVal.s st),
          ("Priority", FieldVal.s pr),
          ("Related BU", FieldVal.l []),
          ("Related OKR", FieldVal.l []),
          ("Project Owners", FieldVal.l []),
          ("KPIs (how to measure success?)", FieldVal.s ""),
          ("Risks/Blockers", FieldVal.s ""),
          ("Next milestone", FieldVal.s ""),
          ("Last updated", FieldVal.s today)] := by
  rfl

/-- Claim C5 counterexample: for the minimal create submission the
field object contains exactly eleven keys and `Target date` is not one
of them, refuting the claim that `Target date` is sent bound to an
empty value. -/
theorem buildCreateFields_no_target_date :
    (buildCreateFields minimalCreateValues "2026-10-11").map
        (fun l => l.map Prod.fst)
      = some ["Initiative", "Description", "Status", "Priority",
          "Related BU", "Related OKR", "Project Owners",
          "KPIs (how to measure success?)", "Risks/Blockers",
          "Next milestone", "Last updated"] ∧
    "Target date"
      ∉ ((buildCreateFields minimalCreateValues "2026-10-11").getD []).map Prod.fst := by
  decide

theorem startsW_append_self (pat rest : List Char) :
    startsW (pat ++ rest) pat = true := by
  induction pat with
  | nil => cases rest <;> rfl
  | cons c cs ih => simp [startsW, ih]

theorem containsSeg_here (pat rest : List Char) :
    containsSeg (pat ++ rest) pat = true := by
  cases pat with
  | nil => cases rest <;> rfl
  | cons c cs =>
      show (startsW ((c :: cs) ++ rest) (c :: cs)
        || containsSeg (cs ++ rest) (c :: cs)) = true
      rw [startsW_append_self]
      simp

theorem containsSeg_append_left (a : List Char) {hay pat : List Char}
    (h : containsSeg hay pat = true) :
    containsSeg (a ++ hay) pat = true := by
  induction a with
  | nil => simpa using h
  | cons c cs ih =>
      show (startsW ((c :: cs) ++ hay) pat || containsSeg (cs ++ hay) pat) = true
      rw [ih]
      simp

theorem containsSeg_cons (c : Char) {hay pat : List Char}
    (h : containsSeg hay pat = true) :
    containsSeg (c :: hay) pat = true := by
  show (startsW (c :: hay) pat || containsSeg hay pat) = true
  rw [h]
  simp

theorem containsSeg_of_startsW {hay pat : List Char}
    (h : startsW hay pat = true) :
    containsSeg hay pat = true := by
  cases hay with
  | nil =>
      cases pat with
      | nil => rfl
      | cons d ds => simp [startsW] at h
  | cons c cs =>
      show (startsW (c :: cs) pat || containsSeg cs pat) = true
      rw [h]
      simp

theorem startsW_extend {s : List Char} {pat : List Char} (r : List Char)
    (h : startsW s pat = true) :
    startsW (s ++ r) pat = true := by
  induction pat generalizing s with
  | nil => cases s ++ r <;> rfl
  | cons d ds ih =>
      cases s with
      | nil => simp [startsW] at h
      | cons c cs =>
          simp only [startsW, Bool.and_eq_true] at h
          show (c == d && startsW (cs ++ r) ds) = true
          simp [h.1, ih h.2]

theorem containsSeg_strJoin (segs : List String) (s : String) (pat : List Char)
    (hs : s ∈ segs) (hpre : startsW s.data pat = true) :
    containsSeg (strJoin segs).data pat = true := by
  induction segs with
  | nil => cases hs
  | cons a rest ih =>
      show containsSeg (a ++ strJoin rest).data pat = true
      rw [String.data_append]
      rcases List.mem_cons.mp hs with rfl | hmem
      · exact containsSeg_of_startsW (startsW_extend _ hpre)
      · exact containsSeg_append_left _ (ih hmem)

/-- Claim C4 (amended): for every record whose `Priority` field is
present with a non-empty value outside the fixed enumeration, the
formatter assigns `priorityOrder` 999 and renders the neutral emoji in
the priority line of the text (and, being a total function, never
throws); a present-but-empty `Priority` instead falls back to the
default tier. -/
theorem unknown_priority_formatting (rd : Nat → String) (proj : ProjectRecord)
    (c : Bool) (p : String) (hp : proj.fields.priority = some p)
    (hne : p ≠ "") (hmem : p ∉ priorityEnum) :
    (formatProjectForSlack rd proj c).priorityOrder = 999 ∧
    containsStr (formatProjectForSlack rd proj c).text "⚪ Priority: " = true := by
  have hm : p ≠ "Highest - ETD next 30 days" ∧ p ≠ "High - ETD EoQ3" ∧
      p ≠ "Medium - ETD EoQ4" ∧ p ≠ "Low - ETD TBD (possible spill over)" := by
    simpa [priorityEnum] using hmem
  have hlook : priorityLookup p = none := by
    simp [priorityLookup, hm.1, hm.2.1, hm.2.2.1, hm.2.2.2]
  have hpr : jsStrOr proj.fields.priority "Medium - ETD EoQ4" = p := by
    simp [jsStrOr, hp, hne]
  constructor
  · cases c <;> simp [formatProjectForSlack, hpr, hlook]
  · cases c <;>
    · simp only [formatProjectForSlack, hpr, hlook, containsStr, Option.map_none',
        Option.getD_none]
      refine containsSeg_strJoin _ ("⚪ Priority: " ++ p ++ "\n") _ ?_ ?_
      · simp
      · simp only [String.data_append, List.append_assoc]
        exact startsW_append_self _ _

/-- Claim C4 counterexample: a record whose `Priority` field is present
but empty is not formatted with order 999: the empty string is falsy in
JavaScript, so the formatter falls back to the default
`Medium - ETD EoQ4` tier of order 3. -/
theorem empty_priority_counterexample :
    recEmptyPriority.fields.priority = some "" ∧
    "" ∉ priorityEnum ∧
    (formatProjectForSlack renderDate0 recEmptyPriority true).priorityOrder = 3 := by
  decide

/-- Witness for `unknown_priority_formatting` at a concrete record with
the unknown priority value `Urgent`. -/
theorem unknown_priority_formatting_witness :
    (formatProjectForSlack renderDate0 recUnknownPriority true).priorityOrder = 999 :=
  (unknown_priority_formatting renderDate0 recUnknownPriority true "Urgent"
    rfl (by decide) (by decide)).1

/-- Claim C7 (amended): the dispatcher trims the command text and
splits it on whitespace; the first token selects the action and the
remaining tokens re-joined with single spaces form the search term of
the recognized actions; an empty or unrecognized first token opens the
filter modal with the entire trimmed text as the initial search term. -/
theorem dispatch_characterization (text : String) :
    (actionToken text = "list" ∨ actionToken text = "view" →
      dispatch text = DispatchResult.filterModal (searchTermOf text)) ∧
    (actionToken text = "edit" →
      dispatch text = DispatchResult.editList (searchTermOf text)) ∧
    (actionToken text = "delete" →
      dispatch text = DispatchResult.deleteList (searchTermOf text)) ∧
    (actionToken text = "create" ∨ actionToken text = "new" →
      dispatch text = DispatchResult.createModal) ∧
    (actionToken text = "help" → dispatch text = DispatchResult.helpMsg) ∧
    (actionToken text ∉ ["list", "view", "edit", "delete", "create", "new", "help"] →
      dispatch text = DispatchResult.filterModal (trimmedText text)) := by
  refine ⟨?_, ?_, ?_, ?_, ?_, ?_⟩
  · intro h
    rcases h with h | h <;> simp [dispatch, h]
  · intro h
    simp [dispatch, h]
  · intro h
    simp [dispatch, h]
  · intro h
    rcases h with h | h <;> simp [dispatch, h]
  · intro h
    simp [dispatch, h]
  · intro h
    simp only [List.mem_cons, List.not_mem_nil, or_false, not_or] at h
    obtain ⟨h1, h2, h3, h4, h5, h6, h7⟩ := h
    simp [dispatch, h1, h2, h3, h4, h5, h6, h7]

/-- Claim C7 counterexample: on the input `foo  bar` (unrecognized
first token, double space) the dispatcher opens the filter modal with
the whole trimmed text `foo  bar`; an explicit `list` action would
instead receive the whitespace-normalized remainder (`foo bar` for the
input `list foo  bar`, or `bar` as the joined remainder of `foo  bar`),
so the fallback is not observably identical to a `list` action. -/
theorem dispatch_fallback_counterexample :
    dispatch "foo  bar" = DispatchResult.filterModal "foo  bar" ∧
    dispatch "list foo  bar" = DispatchResult.filterModal "foo bar" ∧
    searchTermOf "foo  bar" = "bar" ∧
    ("foo  bar" : String) ≠ "foo bar" ∧
    ("foo  bar" : String) ≠ "bar" := by
  decide

/-- Witness for `dispatch_characterization` on a concrete unrecognized
input. -/
theorem dispatch_characterization_witness :
    dispatch "zzz q" = DispatchResult.filterModal (trimmedText "zzz q") :=
  (dispatch_characterization "zzz q").2.2.2.2.2 (by decide)

theorem projSections_flatMap_pair (rd : Nat → String) (l : List ProjectRecord) :
    projSections (l.flatMap (projectPair rd))
      = l.map (fun pr => ((formatProjectForSlack rd pr true).text,
          (⟨"edit_project", BtnPayload.recordId pr.id⟩ : SButton))) := by
  induction l with
  | nil => rfl
  | cons x xs ih =>
      simp only [List.flatMap_cons, projSections, List.filterMap_append] at *
      simp [projectPair, List.filterMap_cons, ih]

theorem mem_allButtons_pair (rd : Nat → String) {l : List ProjectRecord} {b : SButton}
    (hb : b ∈ allButtons (l.flatMap (projectPair rd))) :
    b.actionId = "edit_project" ∨ b.actionId = "delete_project" := by
  induction l with
  | nil => simp [allButtons] at hb
  | cons x xs ih =>
      simp only [List.flatMap_cons, allButtons, List.flatMap_append,
        List.mem_append] at hb
      rcases hb with hb | hb
      · simp [projectPair, blockButtons] at hb
        rcases hb with rfl | rfl <;> simp
      · exact ih (by simpa [allButtons] using hb)

theorem any_allButtons_pair (rd : Nat → String) (l : List ProjectRecord) (aid : String)
    (h1 : ("edit_project" == aid) = false) (h2 : ("delete_project" == aid) = false) :
    (allButtons (l.flatMap (projectPair rd))).any (fun b => b.actionId == aid) = false := by
  simp [allButtons, List.any_flatMap, projectPair, blockButtons, h1, h2]

theorem allButtons_pageBlocks (rd : Nat → String) (f : ListingFilters) (p : Nat)
    (ps : List ProjectRecord) :
    allButtons (pageBlocks rd f p ps)
      = allButtons (((ps.drop (8 * p)).take 8).flatMap (projectPair rd))
        ++ (if 1 < (ps.length + 7) / 8 then
              (if 0 < (listingNavButtons f p ps.length).length
               then listingNavButtons f p ps.length else [])
            else []) := by
  by_cases hs : 0 < (activeFilterSummary f).length <;>
    by_cases h2 : 1 < (ps.length + 7) / 8 <;>
    by_cases h3 : 0 < (listingNavButtons f p ps.length).length <;>
    simp [pageBlocks, allButtons, List.flatMap_append, blockButtons, hs, h2, h3]

theorem any_listingNav_prev (f : ListingFilters) (p n : Nat) :
    (listingNavButtons f p n).any (fun b => b.actionId == "projects_prev_page")
      = decide (0 < p) := by
  by_cases h1 : 0 < p <;> by_cases h3 : p < (n + 7) / 8 - 1 <;>
    simp [listingNavButtons, h1, h3]

theorem any_listingNav_next (f : ListingFilters) (p n : Nat) :
    (listingNavButtons f p n).any (fun b => b.actionId == "projects_next_page")
      = decide (p < (n + 7) / 8 - 1) := by
  by_cases h1 : 0 < p <;> by_cases h3 : p < (n + 7) / 8 - 1 <;>
    simp [listingNavButtons, h1, h3]

theorem hasBtn_pageBlocks (rd : Nat → String) (f : ListingFilters) (p : Nat)
    (ps : List ProjectRecord) (aid : String)
    (h1 : ("edit_project" == aid) = false) (h2 : ("delete_project" == aid) = false) :
    hasBtn (pageBlocks rd f p ps) aid
      = (if 1 < (ps.length + 7) / 8 then
           (listingNavButtons f p ps.length).any (fun b => b.actionId == aid)
         else false) := by
  rw [hasBtn, allButtons_pageBlocks, List.any_append,
    any_allButtons_pair rd _ aid h1 h2]
  by_cases hc : 1 < (ps.length + 7) / 8 <;>
    by_cases h3 : 0 < (listingNavButtons f p ps.length).length <;>
    simp [hc, h3]
  have hnil : listingNavButtons f p ps.length = [] :=
    List.length_eq_zero.mp (by omega)
  simp [hnil]

theorem projSections_pageBlocks (rd : Nat → String) (f : ListingFilters) (p : Nat)
    (ps : List ProjectRecord) :
    projSections (pageBlocks rd f p ps)
      = ((ps.drop (8 * p)).take 8).map (fun pr =>
          ((formatProjectForSlack rd pr true).text,
           (⟨"edit_project", BtnPayload.recordId pr.id⟩ : SButton))) := by
  by_cases hs : 0 < (activeFilterSummary f).length <;>
    by_cases h2 : 1 < (ps.length + 7) / 8 <;>
    by_cases h3 : 0 < (listingNavButtons f p ps.length).length <;>
    simp [pageBlocks, projSections, List.filterMap_append, hs, h2, h3,
      ← projSections_flatMap_pair rd, projSections]

/-- Claim C1 (amended): for every filtered and sorted result list of
size N and page index p, `showProjectsPage` renders exactly the records
of the window [8p, min(8p+8, N)); the blocks contain a Previous control
iff p > 0 AND N > 8 (the navigation row is emitted only when there is
more than one page), and a Next control iff 8(p+1) < N; the payload of
each control carries the complete filter set and the adjacent page index. -/
theorem showProjectsPage_spec (rd : Nat → String) (f : ListingFilters) (p : Nat)
    (ps : List ProjectRecord) (h : ps ≠ []) :
    showProjectsPage rd f p ps = PageRender.page (pageBlocks rd f p ps) ∧
    projSections (pageBlocks rd f p ps)
      = ((ps.drop (8 * p)).take 8).map (fun pr =>
          ((formatProjectForSlack rd pr true).text,
           (⟨"edit_project", BtnPayload.recordId pr.id⟩ : SButton))) ∧
    (hasBtn (pageBlocks rd f p ps) "projects_prev_page" = true ↔
      0 < p ∧ 8 < ps.length) ∧
    (hasBtn (pageBlocks rd f p ps) "projects_next_page" = true ↔
      8 * (p + 1) < ps.length) ∧
    (∀ b ∈ allButtons (pageBlocks rd f p ps),
      (b.actionId = "projects_prev_page" →
        b.payload = BtnPayload.listingNav f (p - 1)) ∧
      (b.actionId = "projects_next_page" →
        b.payload = BtnPayload.listingNav f (p + 1))) := by
  refine ⟨by simp [showProjectsPage, h], projSections_pageBlocks rd f p ps, ?_, ?_, ?_⟩
  · rw [hasBtn_pageBlocks rd f p ps _ (by decide) (by decide), any_listingNav_prev]
    by_cases hc : 1 < (ps.length + 7) / 8 <;> simp [hc] <;> omega
  · rw [hasBtn_pageBlocks rd f p ps _ (by decide) (by decide), any_listingNav_next]
    by_cases hc : 1 < (ps.length + 7) / 8 <;> simp [hc] <;> omega
  · intro b hb
    rw [allButtons_pageBlocks, List.mem_append] at hb
    rcases hb with hb | hb
    · rcases mem_allButtons_pair rd hb with he | he <;>
        constructor <;> intro hid <;> rw [he] at hid <;> simp at hid
    · have hb' : b ∈ listingNavButtons f p ps.length := by
        by_cases hc : 1 < (ps.length + 7) / 8 <;>
          by_cases h3 : 0 < (listingNavButtons f p ps.length).length <;>
          simp [hc, h3] at hb
        exact hb
      simp only [listingNavButtons, List.mem_append] at hb'
      by_cases h1 : 0 < p <;> by_cases h3 : p < (ps.length + 7) / 8 - 1 <;>
        simp [h1, h3] at hb' <;>
        rcases hb' with rfl | rfl <;> simp

/-- Claim C1 counterexample: for a one-record result list rendered at
page index 1, the page index is positive yet no Previous control is
emitted (the source renders navigation only when there is more than one
page), refuting the claim that a Previous control is present iff p > 0. -/
theorem showProjectsPage_prev_counterexample :
    showProjectsPage renderDate0 filters0 1 [recNoDate]
      = PageRender.page (pageBlocks renderDate0 filters0 1 [recNoDate]) ∧
    0 < 1 ∧
    hasBtn (pageBlocks renderDate0 filters0 1 [recNoDate]) "projects_prev_page"
      = false := by
  refine ⟨rfl, by decide, ?_⟩
  rfl

/-- Witness for `showProjectsPage_spec` at a nine-record list on page
zero: the Next control is present. -/
theorem showProjectsPage_spec_witness :
    hasBtn (pageBlocks renderDate0 filters0 0 nineRecords) "projects_next_page"
      = true :=
  ((showProjectsPage_spec renderDate0 filters0 0 nineRecords
    (by decide)).2.2.2.1).mpr (by decide)

theorem projSections_secmap (rd : Nat → String) (action : String)
    (l : List ProjectRecord) :
    projSections (l.map (fun pr =>
        SlackBlock.sec (formatProjectForSlack rd pr false).text
          (some ⟨action ++ "_project", BtnPayload.recordId pr.id⟩)))
      = l.map (fun pr => ((formatProjectForSlack rd pr false).text,
          (⟨action ++ "_project", BtnPayload.recordId pr.id⟩ : SButton))) := by
  induction l with
  | nil => rfl
  | cons x xs ih =>
      simp only [List.map_cons, projSections, List.filterMap_cons] at *
      simp [ih]

theorem projSections_listBlocks (rd : Nat → String) (action st : String)
    (su : Option String) (ps : List ProjectRecord) :
    projSections (listBlocks rd action st su ps)
      = (ps.take 10).map (fun pr => ((formatProjectForSlack rd pr false).text,
          (⟨action ++ "_project", BtnPayload.recordId pr.id⟩ : SButton))) := by
  by_cases hl : 10 < ps.length <;>
    simp [listBlocks, projSections, List.filterMap_append, hl,
      ← projSections_secmap rd action, projSections]

theorem hasBtn_listBlocks (rd : Nat → String) (action st : String)
    (su : Option String) (ps : List ProjectRecord) (aid : String)
    (h : ((action ++ "_project") == aid) = false) :
    hasBtn (listBlocks rd action st su ps) aid = false := by
  have hne : action ++ "_project" ≠ aid := by simpa using h
  by_cases hl : 10 < ps.length <;>
    simp [listBlocks, hasBtn, allButtons, List.flatMap_append, blockButtons, hl,
      List.any_flatMap, h] <;>
  · intro x hx b hb
    rcases List.mem_map.mp (List.take_subset _ _ hx) with ⟨pr, _, rfl⟩
    simp at hb
    subst hb
    simp [hne]

/-- Claim C10: for every non-empty result list the delete selection
list of `showProjectList` displays exactly the first min(10, N)
projects, emits no pagination navigation control for any result size,
and appends the overflow context notice stating that 10 of N are shown
exactly when N exceeds 10. -/
theorem showProjectList_delete_spec (rd : Nat → String) (st : String)
    (ps : List ProjectRecord) (h : ps ≠ []) :
    showProjectList rd "delete" st none ps
      = PageRender.page (listBlocks rd "delete" st none ps) ∧
    projSections (listBlocks rd "delete" st none ps)
      = (ps.take 10).map (fun pr => ((formatProjectForSlack rd pr false).text,
          (⟨"delete_project", BtnPayload.recordId pr.id⟩ : SButton))) ∧
    (∀ aid ∈ navActionIds, hasBtn (listBlocks rd "delete" st none ps) aid = false) ∧
    (10 < ps.length →
      SlackBlock.context (listOverflowNotice ps.length)
        ∈ listBlocks rd "delete" st none ps) := by
  have hdp : ("delete" : String) ++ "_project" = "delete_project" := rfl
  refine ⟨by simp [showProjectList, h], ?_, ?_, ?_⟩
  · rw [← hdp]
    exact projSections_listBlocks rd "delete" st none ps
  · intro aid haid
    simp only [navActionIds, List.mem_cons, List.not_mem_nil, or_false] at haid
    apply hasBtn_listBlocks
    rcases haid with rfl | rfl | rfl | rfl <;> rfl
  · intro hl
    simp [listBlocks, hl]

/-- Witness for `showProjectList_delete_spec` at an eleven-record list:
no navigation button and the overflow notice is present. -/
theorem showProjectList_delete_spec_witness :
    hasBtn (listBlocks renderDate0 "delete" "" none elevenRecords)
        "projects_next_page" = false ∧
    SlackBlock.context (listOverflowNotice elevenRecords.length)
      ∈ listBlocks renderDate0 "delete" "" none elevenRecords :=
  ⟨(showProjectList_delete_spec renderDate0 "" elevenRecords (by decide)).2.2.1
      "projects_next_page" (by decide),
   (showProjectList_delete_spec renderDate0 "" elevenRecords (by decide)).2.2.2
      (by decide)⟩
